import Mathlib

/-!
# Verification of the DWH Orders-to-Cash extraction pipeline

Shallow embedding of the core of `src/main/M01_combine_sql.py` together with
the static schema of `src/processes/P04_static_lists.py`.

Modelling conventions:
* A warehouse cell that pandas would hold as `NaN` (missing) is `none`;
  present values are `some v`.
* Numeric cell values (quantities, monetary amounts) are modelled as exact
  integers `Int`; every claim under verification is about the sum/structure
  of these values and is independent of the concrete numeric carrier.
* Column names are strings.  The helper `read_sql_clean`/`normalize_columns`
  (in `processes/P03_shared_functions.py`, which is not part of the sources)
  is modelled from the spec: it maps every warehouse column name to one
  canonical case convention — "lowercase, underscore", as the docstrings of
  `M01_combine_sql.py` state and as every literal column access on the way
  to the final selection (`df_orders["gp_order_id"]`, `df_items["vat_band"]`,
  `df_final["braintree_tx_index"]`, `df_final["vendor_group"]`, ...)
  requires in order to run; the pivot-derived names are lowercase by
  construction.  The schema constant `FINAL_DF_ORDER` is kept exactly as
  the source writes it — uppercase — and the resulting unconditional case
  mismatch at the final `df_final[FINAL_DF_ORDER]` selection is proved
  below.
-/

/-- One row of the order-level extraction (`run_order_level_query`).
Only the attributes that the merge/pivot and classification logic of
`M01_combine_sql.py` reads are modelled; the remaining monetary and
timestamp columns are never inspected by that logic and are elided. -/
structure OrderRow where
  gp_order_id : Option String
  braintree_tx_index : Option Int
  vendor_group : Option String
  payment_system : Option String
  order_vendor : Option String
deriving DecidableEq, Repr

/-- One row of the item-level extraction (`run_item_level_query`), i.e. one
pre-aggregated (order identifier, VAT band) pair with its three metrics. -/
structure ItemRow where
  gp_order_id : String
  vat_band : String
  item_quantity_count : Int
  total_price_inc_vat : Int
  total_price_exc_vat : Int
deriving DecidableEq, Repr

/-- Model of `pandas.Series.unique` over a list: keeps the first occurrence of each
value, in order of appearance; `seen` accumulates the values already kept. -/
def uniqueFirstAux (seen : List String) : List String → List String
  | [] => []
  | x :: xs =>
    if x ∈ seen then uniqueFirstAux seen xs
    else x :: uniqueFirstAux (x :: seen) xs

/-- The distinct, non-missing order identifiers of an order-level table:
`df_orders["gp_order_id"].dropna().unique().tolist()`. -/
def uniqueOrderIds (orders : List OrderRow) : List String :=
  uniqueFirstAux [] (orders.filterMap (fun r => r.gp_order_id))

/-- The slices `gp_order_ids[i:i+chunk_size]` taken by the upload loop
`for i in range(0, len(gp_order_ids), chunk_size)` of
`run_item_level_query`, with an explicit iteration bound (`fuel`) standing
for the loop's finiteness; each step takes the next slice of length
`chunk_size` and advances past it. -/
def chunkListAux : Nat → List String → Nat → List (List String)
  | 0, _, _ => []
  | _ + 1, [], _ => []
  | fuel + 1, x :: xs, n => (x :: xs).take n :: chunkListAux fuel ((x :: xs).drop n) n

/-- All `chunk_size` slices of the identifier list, in loop order.
(`chunk_size = 0` would make Python's `range` raise; it is never used with
anything but the source's constant 25000.) -/
def chunkList (l : List String) (n : Nat) : List (List String) :=
  chunkListAux l.length l n

/-- The warehouse-visible effects of `run_item_level_query`, in order. -/
inductive DbEvent where
  | createTempTable
  | insertChunk (chunk : List String)
  | runItemQuery
deriving DecidableEq, Repr

/-- The source's chunk size constant. -/
def sourceChunkSize : Nat := 25000

/-- Model of `run_item_level_query(conn, df_orders)` of `M01_combine_sql.py`,
modelled as the ordered list of warehouse effects it performs paired with
the error it raises (`none` = no error).  The `ValueError` on an empty
identifier set is raised before `CREATE OR REPLACE TEMP TABLE` and before
any insert, hence the event list is empty in that case. -/
def run_item_level_query (orders : List OrderRow) (chunkSize : Nat) :
    List DbEvent × Option String :=
  if uniqueOrderIds orders = [] then
    ([], some "❌ No valid gp_order_id values found.")
  else
    (DbEvent.createTempTable ::
      ((chunkList (uniqueOrderIds orders) chunkSize).map DbEvent.insertChunk
        ++ [DbEvent.runItemQuery]),
     none)

/-- The batch of identifiers an event inserts, if it is an insert. -/
def insertPayload : DbEvent → Option (List String)
  | DbEvent.insertChunk c => some c
  | _ => none

/-- All identifiers inserted into `temp_order_ids` by a run, in insertion
order (concatenation of the `executemany` batches). -/
def insertedIds (events : List DbEvent) : List String :=
  (events.filterMap insertPayload).flatten

theorem chunkListAux_flatten (n : Nat) (hn : 0 < n) :
    ∀ (fuel : Nat) (l : List String), l.length ≤ fuel →
      (chunkListAux fuel l n).flatten = l := by
  intro fuel
  induction fuel with
  | zero =>
    intro l hl
    have hnil : l = [] := List.eq_nil_of_length_eq_zero (Nat.le_zero.mp hl)
    subst hnil
    simp [chunkListAux]
  | succ fuel ih =>
    intro l hl
    cases l with
    | nil => simp [chunkListAux]
    | cons x xs =>
      simp only [chunkListAux, List.flatten_cons]
      rw [ih ((x :: xs).drop n) (by simp only [List.length_drop, List.length_cons] at hl ⊢; omega)]
      exact List.take_append_drop n (x :: xs)

theorem chunkList_flatten (n : Nat) (hn : 0 < n) (l : List String) :
    (chunkList l n).flatten = l :=
  chunkListAux_flatten n hn l.length l le_rfl

theorem insertedIds_run (orders : List OrderRow) (chunkSize : Nat)
    (hne : uniqueOrderIds orders ≠ []) :
    insertedIds (run_item_level_query orders chunkSize).1 =
      (chunkList (uniqueOrderIds orders) chunkSize).flatten := by
  unfold run_item_level_query
  rw [if_neg hne]
  simp only [insertedIds, List.filterMap_cons, List.filterMap_append, List.filterMap_map]
  rw [show insertPayload ∘ DbEvent.insertChunk = some from rfl, List.filterMap_some]
  simp [insertPayload]

/-- Claim C6. For every order table whose distinct-identifier list is
non-empty and every positive chunk size, the chunked upload of
`run_item_level_query` inserts into `temp_order_ids` exactly the input
identifier list — the very same list, hence the same multiset: every
identifier exactly once, none skipped or duplicated at chunk boundaries. -/
theorem chunked_upload_preserves_ids (orders : List OrderRow) (chunkSize : Nat)
    (hne : uniqueOrderIds orders ≠ []) (hpos : 0 < chunkSize) :
    insertedIds (run_item_level_query orders chunkSize).1 = uniqueOrderIds orders := by
  rw [insertedIds_run orders chunkSize hne]
  exact chunkList_flatten chunkSize hpos (uniqueOrderIds orders)

/-- Concrete order rows used to evaluate the theorems on closed inputs. -/
def ordersEx : List OrderRow :=
  [⟨some "o1", some 1, some "dtc", some "card", some "web"⟩,
   ⟨some "o1", some 2, some "dtc", some "card", some "web"⟩,
   ⟨some "o2", some 1, some "mp", some "card", some "uber"⟩,
   ⟨none, none, some "mp", some "card", some "uber"⟩]

/-- Witness for C6 at a concrete order table and chunk size 2. -/
theorem chunked_upload_preserves_ids_witness :
    insertedIds (run_item_level_query ordersEx 2).1 = uniqueOrderIds ordersEx :=
  chunked_upload_preserves_ids ordersEx 2 (by decide) (by decide)

/-- Claim C7. `run_item_level_query` raises its named error exactly when the
set of distinct, non-missing order identifiers is empty; in that case it is
raised immediately — no warehouse event at all has happened, in particular
the temporary table is not created and nothing is inserted; when the set is
non-empty no error is raised. -/
theorem item_query_empty_ids_error (orders : List OrderRow) (chunkSize : Nat) :
    ((run_item_level_query orders chunkSize).2 ≠ none ↔ uniqueOrderIds orders = [])
    ∧ (uniqueOrderIds orders = [] →
        (run_item_level_query orders chunkSize).2 =
          some "❌ No valid gp_order_id values found."
        ∧ (run_item_level_query orders chunkSize).1 = [])
    ∧ (uniqueOrderIds orders ≠ [] → (run_item_level_query orders chunkSize).2 = none) := by
  by_cases h : uniqueOrderIds orders = [] <;>
    simp [run_item_level_query, h]

/-- The three pivoted item metrics of `pivot_table(values=[...])`. -/
inductive Metric where
  | item_quantity_count
  | total_price_inc_vat
  | total_price_exc_vat
deriving DecidableEq, Repr

/-- The value of a metric on one item row. -/
def metricValue : Metric → ItemRow → Int
  | Metric.item_quantity_count, i => i.item_quantity_count
  | Metric.total_price_inc_vat, i => i.total_price_inc_vat
  | Metric.total_price_exc_vat, i => i.total_price_exc_vat

/-- The column-name stem of a metric (`f"{metric}_{band}"` flattening). -/
def metricName : Metric → String
  | Metric.item_quantity_count => "item_quantity_count"
  | Metric.total_price_inc_vat => "total_price_inc_vat"
  | Metric.total_price_exc_vat => "total_price_exc_vat"

/-- Model of `df_items["vat_band"].replace({...})` of `transform_item_data`:
the four known labels map to short codes, any other label passes through
unchanged. -/
def relabelBand (s : String) : String :=
  if s = "0% VAT Band" then "0"
  else if s = "5% VAT Band" then "5"
  else if s = "20% VAT Band" then "20"
  else if s = "Other / Unknown VAT Band" then "other"
  else s

/-- Lexicographic ≤ on character lists (the order `pivot_table` sorts
string keys by), written as a structurally recursive Boolean so concrete
instances evaluate. -/
def strLeB : List Char → List Char → Bool
  | [], _ => true
  | _ :: _, [] => false
  | a :: as, b :: bs => if a = b then strLeB as bs else decide (a < b)

/-- Lexicographic ≤ on strings. -/
def strLe (s t : String) : Bool :=
  strLeB s.data t.data

theorem strLeB_total : ∀ as bs, strLeB as bs = true ∨ strLeB bs as = true
  | [], _ => Or.inl rfl
  | _ :: _, [] => Or.inr rfl
  | a :: as, b :: bs => by
    by_cases hab : a = b
    · subst hab
      simp only [strLeB, if_pos rfl]
      exact strLeB_total as bs
    · rcases lt_or_gt_of_ne hab with h | h
      · exact Or.inl (by simp [strLeB, if_neg hab, h])
      · exact Or.inr (by simp [strLeB, if_neg (Ne.symm hab), h])

theorem strLeB_trans : ∀ as bs cs, strLeB as bs = true → strLeB bs cs = true →
    strLeB as cs = true
  | [], _, _ => fun _ _ => rfl
  | _ :: _, [], _ => fun h _ => absurd h (by simp [strLeB])
  | _ :: _, _ :: _, [] => fun _ h => absurd h (by simp [strLeB])
  | a :: as, b :: bs, c :: cs => by
    intro h1 h2
    by_cases hab : a = b <;> by_cases hbc : b = c
    · subst hab
      subst hbc
      rw [strLeB, if_pos rfl] at h1 h2 ⊢
      exact strLeB_trans as bs cs h1 h2
    · subst hab
      rw [strLeB, if_pos rfl] at h1
      rw [strLeB, if_neg hbc] at h2 ⊢
      exact h2
    · subst hbc
      rw [strLeB, if_neg hab] at h1
      rw [strLeB, if_pos rfl] at h2
      rw [strLeB, if_neg hab]
      exact h1
    · rw [strLeB, if_neg hab] at h1
      rw [strLeB, if_neg hbc] at h2
      have hac : a < c := lt_trans (of_decide_eq_true h1) (of_decide_eq_true h2)
      rw [strLeB, if_neg (ne_of_lt hac)]
      exact decide_eq_true hac

theorem strLeB_antisymm : ∀ as bs, strLeB as bs = true → strLeB bs as = true → as = bs
  | [], [] => fun _ _ => rfl
  | [], _ :: _ => fun _ h => absurd h (by simp [strLeB])
  | _ :: _, [] => fun h _ => absurd h (by simp [strLeB])
  | a :: as, b :: bs => by
    intro h1 h2
    by_cases hab : a = b
    · subst hab
      rw [strLeB, if_pos rfl] at h1 h2
      rw [strLeB_antisymm as bs h1 h2]
    · rw [strLeB, if_neg hab] at h1
      rw [strLeB, if_neg (Ne.symm hab)] at h2
      exact absurd (of_decide_eq_true h2) (lt_asymm (of_decide_eq_true h1))

instance strLe_total_inst : IsTotal String (fun a b => strLe a b = true) :=
  ⟨fun a b => strLeB_total a.data b.data⟩

instance strLe_trans_inst : IsTrans String (fun a b => strLe a b = true) :=
  ⟨fun a b c => strLeB_trans a.data b.data c.data⟩

instance strLe_antisymm_inst : IsAntisymm String (fun a b => strLe a b = true) :=
  ⟨fun a b h1 h2 => by
    cases a
    cases b
    exact congrArg String.mk (strLeB_antisymm _ _ h1 h2)⟩

/-- Sorted list of the distinct elements of `l` (how `pivot_table` orders
its index and its column levels). -/
def sortedUnique (l : List String) : List String :=
  l.dedup.insertionSort (fun a b => strLe a b = true)

/-- The index of the pivot table: the distinct order identifiers of the
item table, sorted. -/
def pivotIndex (items : List ItemRow) : List String :=
  sortedUnique (items.map (fun i => i.gp_order_id))

/-- The VAT-band column level of the pivot table: the distinct relabeled
bands occurring in the item table, sorted. -/
def observedBands (items : List ItemRow) : List String :=
  sortedUnique (items.map (fun i => relabelBand i.vat_band))

/-- One pivot cell `df_pivot.loc[oid, f"{metric}_{band}"]`: sum of the
metric over all item rows of order `oid` in relabeled band `band`
(`aggfunc="sum"`); an absent (order, band) combination sums an empty list,
which is `pivot_table`'s `fill_value=0`. -/
def pivotVal (items : List ItemRow) (m : Metric) (oid band : String) : Int :=
  ((items.filter (fun i => i.gp_order_id == oid && relabelBand i.vat_band == band)).map
    (metricValue m)).sum

/-- Model of `df_pivot["total_products"]`: the row-wise sum of every
`item_quantity_count_*` column, i.e. of the quantity column of every band
present in the pivot (`df_pivot.filter(like="item_quantity_count_").sum(axis=1)`). -/
def pivotTotal (items : List ItemRow) (oid : String) : Int :=
  ((observedBands items).map
    (fun b => pivotVal items Metric.item_quantity_count oid b)).sum

/-- Whether the left join `df_orders.merge(df_pivot, how="left",
left_on="gp_order_id", right_index=True)` finds a match for this order
row: its identifier is present and occurs in the pivot index. -/
def joinMatches (items : List ItemRow) (r : OrderRow) : Bool :=
  match r.gp_order_id with
  | none => false
  | some oid => items.any (fun i => i.gp_order_id == oid)

/-- A pivoted metric cell of the merged table right after the left join:
the pivot value on a match, `NaN` (= `none`) otherwise. -/
def joinedCell (items : List ItemRow) (r : OrderRow) (m : Metric) (band : String) :
    Option Int :=
  match r.gp_order_id with
  | none => none
  | some oid =>
    if items.any (fun i => i.gp_order_id == oid) then some (pivotVal items m oid band)
    else none

/-- The cell `total_products` of the merged table right after the left join. -/
def joinedTotal (items : List ItemRow) (r : OrderRow) : Option Int :=
  match r.gp_order_id with
  | none => none
  | some oid =>
    if items.any (fun i => i.gp_order_id == oid) then some (pivotTotal items oid)
    else none

/-- The clearing mask of `transform_item_data`:
`(df_final["braintree_tx_index"].notna()) & (df_final["braintree_tx_index"] >= 2)`. -/
def clearMask (r : OrderRow) : Bool :=
  match r.braintree_tx_index with
  | some k => decide (2 ≤ k)
  | none => false

/-- A pivoted metric cell of the final merged table: the joined value,
overwritten with `np.nan` on rows selected by the clearing mask
(`df_final.loc[mask, item_cols] = np.nan`). -/
def transformCell (items : List ItemRow) (r : OrderRow) (m : Metric) (band : String) :
    Option Int :=
  if clearMask r then none else joinedCell items r m band

/-- The cell `total_products` of the final merged table. -/
def transformTotal (items : List ItemRow) (r : OrderRow) : Option Int :=
  if clearMask r then none else joinedTotal items r

/-- Claim C2. A merged row with a present transaction index ≥ 2 has every
item-derived column (each pivoted metric cell and `total_products`) equal
to the missing-value marker after `transform_item_data`; a row whose
transaction index is 1 or absent keeps exactly the values produced by the
left join with the pivoted item aggregate. -/
theorem tx_ge_two_clears_item_columns (items : List ItemRow) (r : OrderRow) :
    (∀ k : Int, r.braintree_tx_index = some k → 2 ≤ k →
      (∀ m band, transformCell items r m band = none) ∧ transformTotal items r = none)
    ∧ (r.braintree_tx_index = some 1 ∨ r.braintree_tx_index = none →
      (∀ m band, transformCell items r m band = joinedCell items r m band)
      ∧ transformTotal items r = joinedTotal items r) := by
  constructor
  · intro k hk h2
    have hmask : clearMask r = true := by
      simp [clearMask, hk, h2]
    exact ⟨fun m band => by simp [transformCell, hmask],
           by simp [transformTotal, hmask]⟩
  · intro h
    have hmask : clearMask r = false := by
      rcases h with h | h <;> simp [clearMask, h]
    exact ⟨fun m band => by simp [transformCell, hmask],
           by simp [transformTotal, hmask]⟩

/-- Concrete item rows used to evaluate the theorems on closed inputs. -/
def itemsEx : List ItemRow :=
  [⟨"o1", "0% VAT Band", 3, 30, 30⟩,
   ⟨"o1", "20% VAT Band", 2, 24, 20⟩,
   ⟨"o2", "Other / Unknown VAT Band", 4, 40, 36⟩]

/-- Witness for C2: a row with transaction index 2 is cleared, a row with
transaction index 1 keeps the joined values. -/
theorem tx_ge_two_clears_item_columns_witness :
    ((∀ m band,
        transformCell itemsEx ⟨some "o1", some 2, some "dtc", some "card", some "web"⟩ m band
          = none)
      ∧ transformTotal itemsEx ⟨some "o1", some 2, some "dtc", some "card", some "web"⟩ = none)
    ∧ ((∀ m band,
        transformCell itemsEx ⟨some "o1", some 1, some "dtc", some "card", some "web"⟩ m band
          = joinedCell itemsEx ⟨some "o1", some 1, some "dtc", some "card", some "web"⟩ m band)
      ∧ transformTotal itemsEx ⟨some "o1", some 1, some "dtc", some "card", some "web"⟩
          = joinedTotal itemsEx ⟨some "o1", some 1, some "dtc", some "card", some "web"⟩) :=
  ⟨(tx_ge_two_clears_item_columns itemsEx _).1 2 rfl (by decide),
   (tx_ge_two_clears_item_columns itemsEx _).2 (Or.inl rfl)⟩

/-- Claim C9. A merged row whose order identifier matches no item row (or is
missing) carries the missing-value marker in every pivoted metric column
and in `total_products` — the left join yields missing, not zero, because
`fill_value=0` acts only inside the pivot — whatever its transaction index
(in particular also when it is 1 or absent). -/
theorem unmatched_rows_are_missing (items : List ItemRow) (r : OrderRow)
    (h : r.gp_order_id = none
      ∨ ∃ oid, r.gp_order_id = some oid ∧ ∀ i ∈ items, i.gp_order_id ≠ oid) :
    (∀ m band, transformCell items r m band = none) ∧ transformTotal items r = none := by
  have hcell : ∀ m band, joinedCell items r m band = none := by
    intro m band
    rcases h with h | ⟨oid, hoid, hnone⟩
    · simp [joinedCell, h]
    · have : items.any (fun i => i.gp_order_id == oid) = false := by
        simp only [List.any_eq_false]
        intro i hi
        simpa using hnone i hi
      simp [joinedCell, hoid, this]
  have htot : joinedTotal items r = none := by
    rcases h with h | ⟨oid, hoid, hnone⟩
    · simp [joinedTotal, h]
    · have : items.any (fun i => i.gp_order_id == oid) = false := by
        simp only [List.any_eq_false]
        intro i hi
        simpa using hnone i hi
      simp [joinedTotal, hoid, this]
  refine ⟨fun m band => ?_, ?_⟩
  · unfold transformCell
    rw [hcell]
    simp
  · unfold transformTotal
    rw [htot]
    simp

/-- Witness for C9 at a row whose identifier occurs in no item row. -/
theorem unmatched_rows_are_missing_witness :
    (∀ m band,
      transformCell itemsEx ⟨some "o9", some 1, some "dtc", some "card", some "web"⟩ m band
        = none)
    ∧ transformTotal itemsEx ⟨some "o9", some 1, some "dtc", some "card", some "web"⟩ = none :=
  unmatched_rows_are_missing itemsEx _ (Or.inr ⟨"o9", rfl, by decide⟩)

/-- The six provider buckets of `main`'s export stage. -/
inductive Provider where
  | braintree
  | paypal
  | uber
  | deliveroo
  | justeat
  | amazon
deriving DecidableEq, Repr

/-- Python's `str.lower()`, character by character.  (The classification
literals are plain ASCII, so per-character lowering coincides with
Python's semantics on every input compared against them.) -/
def strLower (s : String) : String :=
  ⟨s.data.map Char.toLower⟩

/-- Model of `Series.str.lower()` on a possibly missing cell: lowercases a present
string, keeps `NaN` missing. -/
def lcase (o : Option String) : Option String :=
  o.map strLower

/-- The row filters defining `df_braintree`, ..., `df_amazon` in `main`.
On a missing cell pandas' `==` is `False` and `!=` is `True`, which is what
the `Option` comparisons below compute. -/
def providerRule : Provider → OrderRow → Bool
  | Provider.braintree, r =>
    (lcase r.vendor_group == some "dtc") && !(lcase r.payment_system == some "paypal")
  | Provider.paypal, r =>
    (lcase r.vendor_group == some "dtc") && (lcase r.payment_system == some "paypal")
  | Provider.uber, r => lcase r.order_vendor == some "uber"
  | Provider.deliveroo, r => lcase r.order_vendor == some "deliveroo"
  | Provider.justeat, r =>
    (lcase r.order_vendor == some "just eat") || (lcase r.order_vendor == some "justeat")
  | Provider.amazon, r => lcase r.order_vendor == some "amazon uk"

/-- All providers, in the order of `provider_map`. -/
def providerList : List Provider :=
  [Provider.braintree, Provider.paypal, Provider.uber, Provider.deliveroo,
   Provider.justeat, Provider.amazon]

/-- The buckets a row falls into. -/
def matchingBuckets (r : OrderRow) : List Provider :=
  providerList.filter (fun p => providerRule p r)

/-- The rows of provider `p`'s export subset (`df_final.loc[...]`). -/
def bucketRows (p : Provider) (rows : List OrderRow) : List OrderRow :=
  rows.filter (providerRule p)

/-- A row that satisfies both the Braintree rule (vendor_group `dtc`,
payment_system not `paypal`) and the Uber rule (order_vendor `uber`). -/
def r_dtc_uber : OrderRow :=
  ⟨some "o1", some 1, some "dtc", some "card", some "uber"⟩

/-- Claim C3, counterexample. The six classification rules are not mutually
exclusive: the concrete row `r_dtc_uber` matches both the Braintree rule
and the Uber rule, so it lands in two provider buckets, refuting "at most
one provider bucket". -/
theorem classification_not_mutually_exclusive :
    providerRule Provider.braintree r_dtc_uber = true
    ∧ providerRule Provider.uber r_dtc_uber = true
    ∧ matchingBuckets r_dtc_uber = [Provider.braintree, Provider.uber]
    ∧ ¬ (matchingBuckets r_dtc_uber).length ≤ 1 := by
  refine ⟨?_, ?_, ?_, ?_⟩ <;> decide

/-- Claim C3, amended. Within each rule family the buckets are mutually
exclusive — a row is in at most one of {Braintree, PayPal} and in at most
one of {Uber, Deliveroo, Just Eat, Amazon} (a row may still match one rule
of each family simultaneously) — and a row matching no rule appears in no
exported subset. -/
theorem classification_family_exclusive_and_drop (r : OrderRow) (rows : List OrderRow) :
    ¬(providerRule Provider.braintree r = true ∧ providerRule Provider.paypal r = true)
    ∧ List.Pairwise (fun p q => ¬(providerRule p r = true ∧ providerRule q r = true))
        [Provider.uber, Provider.deliveroo, Provider.justeat, Provider.amazon]
    ∧ ((∀ p, providerRule p r = false) → ∀ p, r ∉ bucketRows p rows) := by
  refine ⟨?_, ?_, ?_⟩
  · rintro ⟨h1, h2⟩
    simp only [providerRule, Bool.and_eq_true, Bool.not_eq_true',
      beq_iff_eq, beq_eq_false_iff_ne] at h1 h2
    exact h1.2 h2.2
  · have hu : providerRule Provider.uber r = true → lcase r.order_vendor = some "uber" := by
      intro h
      simpa only [providerRule, beq_iff_eq] using h
    have hd : providerRule Provider.deliveroo r = true →
        lcase r.order_vendor = some "deliveroo" := by
      intro h
      simpa only [providerRule, beq_iff_eq] using h
    have hj : providerRule Provider.justeat r = true →
        lcase r.order_vendor = some "just eat" ∨ lcase r.order_vendor = some "justeat" := by
      intro h
      simpa only [providerRule, Bool.or_eq_true, beq_iff_eq] using h
    have ha : providerRule Provider.amazon r = true →
        lcase r.order_vendor = some "amazon uk" := by
      intro h
      simpa only [providerRule, beq_iff_eq] using h
    refine List.Pairwise.cons ?_ (List.Pairwise.cons ?_ (List.Pairwise.cons ?_ ?_))
    · intro q hq h
      obtain ⟨h1, h2⟩ := h
      have h1' := hu h1
      fin_cases hq
      · have h2' := hd h2
        rw [h1'] at h2'
        exact absurd h2' (by decide)
      · rcases hj h2 with h2' | h2' <;> rw [h1'] at h2' <;> exact absurd h2' (by decide)
      · have h2' := ha h2
        rw [h1'] at h2'
        exact absurd h2' (by decide)
    · intro q hq h
      obtain ⟨h1, h2⟩ := h
      have h1' := hd h1
      fin_cases hq
      · rcases hj h2 with h2' | h2' <;> rw [h1'] at h2' <;> exact absurd h2' (by decide)
      · have h2' := ha h2
        rw [h1'] at h2'
        exact absurd h2' (by decide)
    · intro q hq h
      obtain ⟨h1, h2⟩ := h
      fin_cases hq
      have h2' := ha h2
      rcases hj h1 with h1' | h1' <;> rw [h1'] at h2' <;> exact absurd h2' (by decide)
    · exact List.pairwise_singleton _ _
  · intro hnone p hmem
    have := (List.mem_filter.mp hmem).2
    rw [hnone p] at this
    exact Bool.false_ne_true this

/-- Witness for the amended C3 at a concrete row matching no rule. -/
theorem classification_family_exclusive_and_drop_witness :
    ¬(providerRule Provider.braintree ⟨some "o3", some 1, some "mp", some "card", some "web"⟩
        = true
      ∧ providerRule Provider.paypal ⟨some "o3", some 1, some "mp", some "card", some "web"⟩
        = true)
    ∧ (∀ p, ⟨some "o3", some 1, some "mp", some "card", some "web"⟩
        ∉ bucketRows p ordersEx) :=
  ⟨(classification_family_exclusive_and_drop _ ordersEx).1,
   (classification_family_exclusive_and_drop _ ordersEx).2.2 (fun p => by cases p <;> decide)⟩

/-- Claim C5. Provider bucket membership is decided by case-insensitive
comparison of `vendor_group`, `payment_system` and `order_vendor`:
two rows whose three classification fields agree up to casing land in
exactly the same buckets, and each rule holds precisely as specified
(Braintree: vendor_group `dtc` and payment_system not `paypal`; PayPal:
`dtc` and `paypal`; Uber/Deliveroo/Amazon: the order_vendor literal;
Just Eat: `just eat` or `justeat`). -/
theorem bucket_membership_case_insensitive (r r' : OrderRow)
    (hvg : lcase r.vendor_group = lcase r'.vendor_group)
    (hps : lcase r.payment_system = lcase r'.payment_system)
    (hov : lcase r.order_vendor = lcase r'.order_vendor) :
    (∀ p, providerRule p r = providerRule p r')
    ∧ (providerRule Provider.braintree r = true ↔
        lcase r.vendor_group = some "dtc" ∧ lcase r.payment_system ≠ some "paypal")
    ∧ (providerRule Provider.paypal r = true ↔
        lcase r.vendor_group = some "dtc" ∧ lcase r.payment_system = some "paypal")
    ∧ (providerRule Provider.uber r = true ↔ lcase r.order_vendor = some "uber")
    ∧ (providerRule Provider.deliveroo r = true ↔ lcase r.order_vendor = some "deliveroo")
    ∧ (providerRule Provider.justeat r = true ↔
        lcase r.order_vendor = some "just eat" ∨ lcase r.order_vendor = some "justeat")
    ∧ (providerRule Provider.amazon r = true ↔ lcase r.order_vendor = some "amazon uk") := by
  refine ⟨fun p => ?_, ?_, ?_, ?_, ?_, ?_, ?_⟩
  · cases p <;> simp only [providerRule, hvg, hps, hov]
  · simp [providerRule, Bool.and_eq_true, Bool.not_eq_true', beq_iff_eq,
      beq_eq_false_iff_ne]
  · simp [providerRule, Bool.and_eq_true, beq_iff_eq]
  · simp [providerRule, beq_iff_eq]
  · simp [providerRule, beq_iff_eq]
  · simp [providerRule, Bool.or_eq_true, beq_iff_eq]
  · simp [providerRule, beq_iff_eq]

/-- Witness for C5: a row with fields `DTC` / `Paypal` / `JustEat` is
classified exactly like its lowercase twin (and in particular routes to
PayPal and Just Eat). -/
theorem bucket_membership_case_insensitive_witness :
    providerRule Provider.paypal ⟨some "o1", some 1, some "DTC", some "Paypal", some "JustEat"⟩
      = providerRule Provider.paypal ⟨some "o1", some 1, some "dtc", some "paypal", some "justeat"⟩
    ∧ providerRule Provider.justeat ⟨some "o1", some 1, some "DTC", some "Paypal", some "JustEat"⟩
      = providerRule Provider.justeat ⟨some "o1", some 1, some "dtc", some "paypal", some "justeat"⟩
    ∧ providerRule Provider.braintree ⟨some "o1", some 1, some "DTC", some "Paypal", some "JustEat"⟩
      = providerRule Provider.braintree ⟨some "o1", some 1, some "dtc", some "paypal", some "justeat"⟩ :=
  ⟨(bucket_membership_case_insensitive
      ⟨some "o1", some 1, some "DTC", some "Paypal", some "JustEat"⟩
      ⟨some "o1", some 1, some "dtc", some "paypal", some "justeat"⟩
      (by decide) (by decide) (by decide)).1 Provider.paypal,
   (bucket_membership_case_insensitive
      ⟨some "o1", some 1, some "DTC", some "Paypal", some "JustEat"⟩
      ⟨some "o1", some 1, some "dtc", some "paypal", some "justeat"⟩
      (by decide) (by decide) (by decide)).1 Provider.justeat,
   (bucket_membership_case_insensitive
      ⟨some "o1", some 1, some "DTC", some "Paypal", some "JustEat"⟩
      ⟨some "o1", some 1, some "dtc", some "paypal", some "justeat"⟩
      (by decide) (by decide) (by decide)).1 Provider.braintree⟩

/-- The four short band codes the pivot can produce from well-formed data. -/
def fourBands : List String := ["0", "5", "20", "other"]

/-- The band quantity columns that survive the final 52-column selection. -/
def threeBands : List String := ["0", "5", "20"]

/-- The four VAT-band labels the warehouse item query produces.
Modelled from the spec: `sql/S02_item_level.sql` is not among the sources;
the spec's Item Aggregate data model fixes its `vat_band` domain to
{0%, 5%, 20%, other/unknown}, written as these labels. -/
def knownVatLabels : List String :=
  ["0% VAT Band", "5% VAT Band", "20% VAT Band", "Other / Unknown VAT Band"]

theorem mem_sortedUnique {a : String} {l : List String} :
    a ∈ sortedUnique l ↔ a ∈ l :=
  ((List.perm_insertionSort _ _).mem_iff).trans (List.mem_dedup)

theorem nodup_sortedUnique (l : List String) : (sortedUnique l).Nodup :=
  ((List.perm_insertionSort _ _).nodup_iff).mpr l.nodup_dedup

theorem mem_observedBands {b : String} {items : List ItemRow} :
    b ∈ observedBands items ↔ ∃ i ∈ items, relabelBand i.vat_band = b := by
  rw [observedBands, mem_sortedUnique, List.mem_map]

theorem pivotVal_zero_of_not_observed {items : List ItemRow} {b : String}
    (hb : b ∉ observedBands items) (m : Metric) (oid : String) :
    pivotVal items m oid b = 0 := by
  have hfil : items.filter
      (fun i => i.gp_order_id == oid && relabelBand i.vat_band == b) = [] := by
    rw [List.filter_eq_nil_iff]
    intro i hi hcontra
    simp only [Bool.and_eq_true, beq_iff_eq] at hcontra
    exact hb (mem_observedBands.mpr ⟨i, hi, hcontra.2⟩)
  rw [pivotVal, hfil]
  rfl

theorem observedBands_subset_fourBands {items : List ItemRow}
    (hlab : ∀ i ∈ items, i.vat_band ∈ knownVatLabels) :
    ∀ b ∈ observedBands items, b ∈ fourBands := by
  intro b hb
  obtain ⟨i, hi, hrel⟩ := mem_observedBands.mp hb
  have := hlab i hi
  rw [← hrel]
  simp only [knownVatLabels, List.mem_cons, List.not_mem_nil, or_false] at this
  rcases this with h | h | h | h <;> rw [h] <;> decide

/-- On well-formed item data (only the four known VAT labels), the
`total_products` column computed in the pivot is the sum of the four
per-band quantity cells. -/
theorem pivotTotal_eq_fourBands {items : List ItemRow}
    (hlab : ∀ i ∈ items, i.vat_band ∈ knownVatLabels) (oid : String) :
    pivotTotal items oid =
      (fourBands.map (fun b => pivotVal items Metric.item_quantity_count oid b)).sum := by
  classical
  rw [pivotTotal,
    ← List.sum_toFinset (fun b => pivotVal items Metric.item_quantity_count oid b)
      (show (observedBands items).Nodup from nodup_sortedUnique _),
    ← List.sum_toFinset (fun b => pivotVal items Metric.item_quantity_count oid b)
      (by decide : fourBands.Nodup)]
  apply Finset.sum_subset
  · intro b hb
    rw [List.mem_toFinset] at hb ⊢
    exact observedBands_subset_fourBands hlab b hb
  · intro b _ hb
    rw [List.mem_toFinset] at hb
    exact pivotVal_zero_of_not_observed hb _ _

/-- Claim C4. On well-formed item data, every pivot row's `total_products`
equals the sum of the four per-band quantity cells (bands 0, 5, 20,
other); and this is the value a merged row carries right after the join —
i.e. at computation time, before the transaction-index ≥ 2 clearing — for
every matched row, including rows the clearing step later blanks. -/
theorem total_products_eq_band_sum (items : List ItemRow)
    (hlab : ∀ i ∈ items, i.vat_band ∈ knownVatLabels) :
    (∀ oid, pivotTotal items oid =
      (fourBands.map (fun b => pivotVal items Metric.item_quantity_count oid b)).sum)
    ∧ (∀ (r : OrderRow) (oid : String), r.gp_order_id = some oid →
        joinMatches items r = true →
        joinedTotal items r =
          some ((fourBands.map (fun b => pivotVal items Metric.item_quantity_count oid b)).sum)) := by
  refine ⟨fun oid => pivotTotal_eq_fourBands hlab oid, ?_⟩
  intro r oid hr hm
  simp only [joinMatches, hr] at hm
  simp only [joinedTotal, hr, if_pos hm, pivotTotal_eq_fourBands hlab oid]

/-- Witness for C4 at the concrete item table and order `o1`. -/
theorem total_products_eq_band_sum_witness :
    pivotTotal itemsEx "o1" =
      (fourBands.map (fun b => pivotVal itemsEx Metric.item_quantity_count "o1" b)).sum ∧
    joinedTotal itemsEx ⟨some "o1", some 2, some "dtc", some "card", some "web"⟩ =
      some ((fourBands.map (fun b => pivotVal itemsEx Metric.item_quantity_count "o1" b)).sum) :=
  ⟨(total_products_eq_band_sum itemsEx (by decide)).1 "o1",
   (total_products_eq_band_sum itemsEx (by decide)).2 _ "o1" rfl (by decide)⟩

/-- The wide table produced by steps 1–3 of `transform_item_data`:
its index (distinct order identifiers, sorted), its band column level
(distinct relabeled bands, sorted) and its cell values. -/
structure PivotTable where
  index : List String
  bands : List String
  val : Metric → String → String → Int

/-- The pivot stage as a whole. -/
def pivotTable (items : List ItemRow) : PivotTable :=
  ⟨pivotIndex items, observedBands items, fun m oid b => pivotVal items m oid b⟩

theorem sortedUnique_eq_of_perm {l l' : List String} (h : l.Perm l') :
    sortedUnique l = sortedUnique l' :=
  List.eq_of_perm_of_sorted
    ((List.perm_insertionSort _ _).trans (h.dedup.trans (List.perm_insertionSort _ _).symm))
    (List.sorted_insertionSort _ _) (List.sorted_insertionSort _ _)

/-- Claim C8. Pivoting is invariant under row reordering: permuting the item
rows before the VAT-band relabeling and pivot yields an identical wide
table — same index, same band columns, same cell values. -/
theorem pivot_invariant_under_permutation (items items' : List ItemRow)
    (h : items.Perm items') :
    pivotTable items = pivotTable items' := by
  simp only [pivotTable, PivotTable.mk.injEq]
  refine ⟨?_, ?_, ?_⟩
  · exact sortedUnique_eq_of_perm (h.map _)
  · exact sortedUnique_eq_of_perm (h.map _)
  · funext m oid b
    exact ((h.filter _).map _).sum_eq

/-- Witness for C8 at a concrete transposition of the item table. -/
theorem pivot_invariant_under_permutation_witness :
    pivotTable itemsEx =
      pivotTable
        [⟨"o1", "20% VAT Band", 2, 24, 20⟩,
         ⟨"o1", "0% VAT Band", 3, 30, 30⟩,
         ⟨"o2", "Other / Unknown VAT Band", 4, 40, 36⟩] :=
  pivot_invariant_under_permutation _ _ (List.Perm.swap _ _ _)

/-- Schema `FINAL_DF_ORDER` from `src/processes/P04_static_lists.py` (lines
27–35), exactly as the source writes it: 52 uppercase column names. -/
def FINAL_DF_ORDER : List String :=
  ["GP_ORDER_ID", "GP_ORDER_ID_OBFUSCATED", "MP_ORDER_ID", "PAYMENT_SYSTEM",
   "BRAINTREE_TX_INDEX", "BRAINTREE_TX_ID", "LOCATION_NAME", "ORDER_VENDOR",
   "VENDOR_GROUP", "ORDER_COMPLETED", "CREATED_AT_TIMESTAMP", "DELIVERED_AT_TIMESTAMP",
   "CREATED_AT_DAY", "CREATED_AT_WEEK", "CREATED_AT_MONTH", "DELIVERED_AT_DAY",
   "DELIVERED_AT_WEEK", "DELIVERED_AT_MONTH", "OPS_DATE_DAY", "OPS_DATE_WEEK",
   "OPS_DATE_MONTH", "POST_PROMO_SALES_INC_VAT", "DELIVERY_FEE_INC_VAT",
   "PRIORITY_FEE_INC_VAT", "SMALL_ORDER_FEE_INC_VAT", "MP_BAG_FEE_INC_VAT",
   "TOTAL_PAYMENT_INC_VAT", "TIPS_AMOUNT", "TOTAL_PAYMENT_WITH_TIPS_INC_VAT",
   "POST_PROMO_SALES_EXC_VAT", "DELIVERY_FEE_EXC_VAT", "PRIORITY_FEE_EXC_VAT",
   "SMALL_ORDER_FEE_EXC_VAT", "MP_BAG_FEE_EXC_VAT", "TOTAL_REVENUE_EXC_VAT",
   "COST_OF_GOODS_INC_VAT", "COST_OF_GOODS_EXC_VAT", "ALT_POST_PROMO_SALES_INC_VAT",
   "ALT_DELIVERY_FEE_EXC_VAT", "ALT_PRIORITY_FEE_EXC_VAT", "ALT_SMALL_ORDER_FEE_EXC_VAT",
   "ALT_TOTAL_PAYMENT_WITH_TIPS_INC_VAT", "TOTAL_PRODUCTS", "ITEM_QUANTITY_COUNT_0",
   "ITEM_QUANTITY_COUNT_5", "ITEM_QUANTITY_COUNT_20", "TOTAL_PRICE_EXC_VAT_0",
   "TOTAL_PRICE_EXC_VAT_5", "TOTAL_PRICE_EXC_VAT_20", "TOTAL_PRICE_INC_VAT_0",
   "TOTAL_PRICE_INC_VAT_5", "TOTAL_PRICE_INC_VAT_20"]

/-- The metric list of `values=[...]` in the pivot call. -/
def metricList : List Metric :=
  [Metric.item_quantity_count, Metric.total_price_inc_vat, Metric.total_price_exc_vat]

/-- The columns the pivot stage adds: one `{metric}_{band}` column per
metric and observed band (the flattened multi-level column index), plus
`total_products`. -/
def pivotColumns (items : List ItemRow) : List String :=
  (metricList.map (fun m =>
    (observedBands items).map (fun b => metricName m ++ "_" ++ b))).flatten
  ++ ["total_products"]

/-- The column list of the merged table `df_orders.merge(df_pivot, ...)`:
the order-level columns followed by the pivot-derived columns. -/
def mergedColumns (ocols : List String) (items : List ItemRow) : List String :=
  ocols ++ pivotColumns items

/-- Model of `df_final[FINAL_DF_ORDER]` (the last step of `transform_item_data`):
succeeds with exactly the schema columns in schema order when every schema
column is present, raising a `KeyError` otherwise; columns outside the
schema are dropped. -/
def selectColumns (cols schema : List String) : Except String (List String) :=
  if ∀ c ∈ schema, c ∈ cols then Except.ok schema
  else Except.error "KeyError: schema column missing from merged data"

/-- The column-level outcome of `transform_item_data`: the merged table's
columns pushed through the final `FINAL_DF_ORDER` selection. -/
def transformColumns (ocols : List String) (items : List ItemRow) :
    Except String (List String) :=
  selectColumns (mergedColumns ocols items) FINAL_DF_ORDER

/-- The export stage of `main`: it runs only after `transform_item_data`
has returned, so a schema error propagates and no provider CSV is written;
on success the files written are the non-empty provider buckets. -/
def mainExports (ocols : List String) (items : List ItemRow) (rows : List OrderRow) :
    Except String (List (Provider × List OrderRow)) :=
  match transformColumns ocols items with
  | Except.error e => Except.error e
  | Except.ok _ =>
    Except.ok ((providerList.map (fun p => (p, bucketRows p rows))).filter
      (fun pr => !pr.2.isEmpty))

/-- True iff a column name contains no uppercase character — the shape of
every normalized data column: the docstrings and the literal lowercase
accesses of `M01_combine_sql.py` pin the (spec-modelled) normalization to
lowercase, and the pivot builds its column names from lowercase literals. -/
def allLowerName (s : String) : Bool :=
  s.data.all (fun ch => !ch.isUpper)

theorem metricName_length (m : Metric) : (metricName m).length = 19 := by
  cases m <;> rfl

theorem upper_gp_not_mem_pivotColumns (items : List ItemRow) :
    "GP_ORDER_ID" ∉ pivotColumns items := by
  intro hmem
  rw [pivotColumns, List.mem_append] at hmem
  rcases hmem with hmem | hmem
  · rw [List.mem_flatten] at hmem
    obtain ⟨l, hl, hml⟩ := hmem
    rw [List.mem_map] at hl
    obtain ⟨m, _, rfl⟩ := hl
    rw [List.mem_map] at hml
    obtain ⟨b, _, heq⟩ := hml
    have hlen := congrArg String.length heq
    rw [String.length_append, String.length_append, metricName_length,
      show ("_").length = 1 from rfl, show ("GP_ORDER_ID").length = 11 from rfl] at hlen
    omega
  · rw [List.mem_singleton] at hmem
    exact absurd hmem (by decide)

theorem upper_gp_not_mem_mergedColumns (ocols : List String) (items : List ItemRow)
    (h : ∀ c ∈ ocols, allLowerName c = true) :
    "GP_ORDER_ID" ∉ mergedColumns ocols items := by
  intro hmem
  rw [mergedColumns, List.mem_append] at hmem
  rcases hmem with hmem | hmem
  · exact absurd (h _ hmem) (by decide)
  · exact upper_gp_not_mem_pivotColumns items hmem

theorem transformColumns_always_keyerror (ocols : List String) (items : List ItemRow)
    (h : ∀ c ∈ ocols, allLowerName c = true) :
    transformColumns ocols items =
      Except.error "KeyError: schema column missing from merged data" := by
  have hne : ¬ ∀ c ∈ FINAL_DF_ORDER, c ∈ mergedColumns ocols items := fun hall =>
    upper_gp_not_mem_mergedColumns ocols items h (hall "GP_ORDER_ID" (by decide))
  unfold transformColumns selectColumns
  rw [if_neg hne]

theorem mainExports_always_keyerror (ocols : List String) (items : List ItemRow)
    (rows : List OrderRow) (h : ∀ c ∈ ocols, allLowerName c = true) :
    mainExports ocols items rows =
      Except.error "KeyError: schema column missing from merged data" := by
  unfold mainExports
  rw [transformColumns_always_keyerror ocols items h]

/-- Claim C1, code-bug evidence.  `FINAL_DF_ORDER` is uppercase in the
source while every column of the merged table is lowercase (order-level
columns by the normalization the visible lowercase accesses require,
pivot columns by construction), so the schema demands the name
`GP_ORDER_ID` that no merged column can equal: the final selection
`df_final[FINAL_DF_ORDER]` raises `KeyError` on every input — even a
fully well-formed merged table — its success branch is unreachable, and
`main` never writes a CSV.  Only the claim's error half (a fatal error
raised before any export) holds; the success half contradicts the
program. -/
theorem final_schema_selection_keyerror (ocols : List String) (items : List ItemRow)
    (rows : List OrderRow) (h : ∀ c ∈ ocols, allLowerName c = true) :
    "GP_ORDER_ID" ∈ FINAL_DF_ORDER ∧ FINAL_DF_ORDER.length = 52
    ∧ "GP_ORDER_ID" ∉ mergedColumns ocols items
    ∧ "gp_order_id" ∉ FINAL_DF_ORDER
    ∧ transformColumns ocols items
        = Except.error "KeyError: schema column missing from merged data"
    ∧ mainExports ocols items rows
        = Except.error "KeyError: schema column missing from merged data" :=
  ⟨by decide, by decide, upper_gp_not_mem_mergedColumns ocols items h, by decide,
   transformColumns_always_keyerror ocols items h,
   mainExports_always_keyerror ocols items rows h⟩

/-- The 42 order-level columns of the merged frame in the canonical
lowercase form the normalization produces (the names `M01_combine_sql.py`
itself reads, completed with the remaining order-level fields). -/
def ocolsEx : List String :=
  ["gp_order_id", "gp_order_id_obfuscated", "mp_order_id", "payment_system",
   "braintree_tx_index", "braintree_tx_id", "location_name", "order_vendor",
   "vendor_group", "order_completed", "created_at_timestamp", "delivered_at_timestamp",
   "created_at_day", "created_at_week", "created_at_month", "delivered_at_day",
   "delivered_at_week", "delivered_at_month", "ops_date_day", "ops_date_week",
   "ops_date_month", "post_promo_sales_inc_vat", "delivery_fee_inc_vat",
   "priority_fee_inc_vat", "small_order_fee_inc_vat", "mp_bag_fee_inc_vat",
   "total_payment_inc_vat", "tips_amount", "total_payment_with_tips_inc_vat",
   "post_promo_sales_exc_vat", "delivery_fee_exc_vat", "priority_fee_exc_vat",
   "small_order_fee_exc_vat", "mp_bag_fee_exc_vat", "total_revenue_exc_vat",
   "cost_of_goods_inc_vat", "cost_of_goods_exc_vat", "alt_post_promo_sales_inc_vat",
   "alt_delivery_fee_exc_vat", "alt_priority_fee_exc_vat", "alt_small_order_fee_exc_vat",
   "alt_total_payment_with_tips_inc_vat"]

/-- Item rows covering all four VAT bands. -/
def itemsFull : List ItemRow :=
  itemsEx ++ [⟨"o1", "5% VAT Band", 1, 5, 4⟩]

/-- Witness for C1 at the fully well-formed merged table (all 42 lowercase
order columns, all four bands observed): the selection still raises
`KeyError` and `main` exports nothing. -/
theorem final_schema_selection_keyerror_witness :
    transformColumns ocolsEx itemsFull
      = Except.error "KeyError: schema column missing from merged data"
    ∧ mainExports ocolsEx itemsFull ordersEx
      = Except.error "KeyError: schema column missing from merged data" :=
  ⟨(final_schema_selection_keyerror ocolsEx itemsFull ordersEx (by decide)).2.2.2.2.1,
   (final_schema_selection_keyerror ocolsEx itemsFull ordersEx (by decide)).2.2.2.2.2⟩

theorem mem_pivotColumns {items : List ItemRow} {b : String} (m : Metric)
    (hb : b ∈ observedBands items) :
    metricName m ++ "_" ++ b ∈ pivotColumns items := by
  apply List.mem_append_left
  rw [List.mem_flatten]
  refine ⟨(observedBands items).map (fun b => metricName m ++ "_" ++ b), ?_, ?_⟩
  · apply List.mem_map_of_mem
    cases m <;> simp [metricList]
  · exact List.mem_map_of_mem _ hb

/-- Claim C10, code-bug evidence.  Other-band items do count into
`total_products` (M01:178 sums every observed `item_quantity_count_*`
column, `_other` included), the `_other` column exists in the merged
table, and the fixed schema contains no `_other` column in either case
form; but the exported-row consequence of the claim never materialises in
the program: since every merged column is lowercase and the schema is
uppercase, the final selection raises `KeyError` on every input, so no
column is ever dropped by a succeeding selection and no row is ever
exported. -/
theorem other_band_counted_but_never_exported (items : List ItemRow) (r : OrderRow)
    (oid : String)
    (hlab : ∀ i ∈ items, i.vat_band ∈ knownVatLabels)
    (hother : 0 < pivotVal items Metric.item_quantity_count oid "other")
    (hr : r.gp_order_id = some oid) (hm : joinMatches items r = true)
    (hclear : clearMask r = false) :
    transformTotal items r = some (pivotTotal items oid)
    ∧ (threeBands.map (fun b => pivotVal items Metric.item_quantity_count oid b)).sum
        < pivotTotal items oid
    ∧ "item_quantity_count_other" ∈ pivotColumns items
    ∧ "item_quantity_count_other" ∉ FINAL_DF_ORDER
    ∧ "ITEM_QUANTITY_COUNT_OTHER" ∉ FINAL_DF_ORDER
    ∧ (∀ (ocols : List String) (rows : List OrderRow),
        (∀ c ∈ ocols, allLowerName c = true) →
        mainExports ocols items rows
          = Except.error "KeyError: schema column missing from merged data") := by
  have hm' : (items.any fun i => i.gp_order_id == oid) = true := by
    simpa [joinMatches, hr] using hm
  have hobs : "other" ∈ observedBands items := by
    by_contra hno
    rw [pivotVal_zero_of_not_observed hno] at hother
    exact lt_irrefl 0 hother
  refine ⟨?_, ?_, ?_, by decide, by decide, ?_⟩
  · simp [transformTotal, hclear, joinedTotal, hr, hm']
  · rw [pivotTotal_eq_fourBands hlab oid,
      show fourBands = threeBands ++ ["other"] from rfl]
    simp only [List.map_append, List.sum_append, List.map_cons, List.map_nil,
      List.sum_cons, List.sum_nil]
    omega
  · exact mem_pivotColumns Metric.item_quantity_count hobs
  · intro ocols rows hlow
    exact mainExports_always_keyerror ocols items rows hlow

/-- Witness for C10: order `o2` of the concrete item table has 4 units in
the other/unknown band and nothing else, and the run over the well-formed
lowercase order columns still exports nothing. -/
theorem other_band_counted_but_never_exported_witness :
    transformTotal itemsEx ⟨some "o2", some 1, some "mp", some "card", some "uber"⟩
        = some (pivotTotal itemsEx "o2")
    ∧ (threeBands.map (fun b => pivotVal itemsEx Metric.item_quantity_count "o2" b)).sum
        < pivotTotal itemsEx "o2"
    ∧ mainExports ocolsEx itemsEx ordersEx
        = Except.error "KeyError: schema column missing from merged data" :=
  ⟨(other_band_counted_but_never_exported itemsEx
      ⟨some "o2", some 1, some "mp", some "card", some "uber"⟩ "o2"
      (by decide) (by decide) rfl (by decide) (by decide)).1,
   (other_band_counted_but_never_exported itemsEx
      ⟨some "o2", some 1, some "mp", some "card", some "uber"⟩ "o2"
      (by decide) (by decide) rfl (by decide) (by decide)).2.1,
   (other_band_counted_but_never_exported itemsEx
      ⟨some "o2", some 1, some "mp", some "card", some "uber"⟩ "o2"
      (by decide) (by decide) rfl (by decide) (by decide)).2.2.2.2.2
     ocolsEx ordersEx (by decide)⟩

/-- Order rows with no usable identifier at all. -/
def ordersNoIds : List OrderRow :=
  [⟨none, some 1, some "dtc", some "card", some "web"⟩,
   ⟨none, none, some "mp", some "card", some "uber"⟩]

/-- Witness for C7: a table with only missing identifiers errors with no
warehouse event, a table with identifiers runs without error. -/
theorem item_query_empty_ids_error_witness :
    ((run_item_level_query ordersNoIds sourceChunkSize).2 =
        some "❌ No valid gp_order_id values found."
      ∧ (run_item_level_query ordersNoIds sourceChunkSize).1 = [])
    ∧ (run_item_level_query ordersEx sourceChunkSize).2 = none :=
  ⟨(item_query_empty_ids_error ordersNoIds sourceChunkSize).2.1 (by decide),
   (item_query_empty_ids_error ordersEx sourceChunkSize).2.2 (by decide)⟩
